import Mathlib

/-!
Shallow embedding of src/browser_client/sip-phone.js (class SIPPhone).

The mutable fields of the SIPPhone object, together with the DOM/display
cells and side-effect channels the handlers touch, are modelled as one
record PhoneState; each method of the class becomes a pure function
PhoneState → PhoneState with the same name, mirroring the source order of
assignments and calls.  DOM-only operations that only toggle button
disabled flags or status-label text (updateCallControls, updateSIPStatus,
updateConnectionStatus) are modelled as identities, with a comment.
Wall-clock reads (new Date()) are passed in as a now : Nat parameter;
localStorage writes of the settings snapshot are modelled by a persist
counter; the log store is a list of (message, level) entries.
-/

namespace SIPPhone

/-- Payload of a status_update event: the full authoritative snapshot
{sip_registered, active_call, has_incoming, caller_number} read field by
field in handleStatusUpdate (lines 163-171). -/
structure StatusPayload where
  sip_registered : Bool
  active_call : Bool
  has_incoming : Bool
  caller_number : String
deriving DecidableEq

/-- Payload of an incoming_call event (caller_number is the only field the
handler reads, line 188). -/
structure IncomingPayload where
  caller_number : String
deriving DecidableEq

/-- Settings snapshot built by getSIPSettings (lines 385-393). -/
structure SIPSettings where
  sip_server : String
  sip_port : Nat
  login : String
  password : String
  number : String
deriving DecidableEq

/-- The mutable state of the SIPPhone object (constructor, lines 2-17),
plus the display cells and effect channels its methods write.
wsOpen models the guard websocket && websocket.readyState === OPEN of
sendWebSocketMessage (line 225); isConnected is the separate flag set by
the open/close callbacks.  callTimer models the interval handle callTimer
being set; ringtone models ringtoneInterval being set.  callInfoVisible,
remoteNumberText, callDurationText and callStatusText model the call-info
DOM region.  The ...Input fields model the input element values read by
getSIPSettings and makeCall.  settingsSaveCount counts localStorage
settings writes performed by saveSettings; sent collects the type fields
of messages actually transmitted on the socket (most recent first); logs
collects (message, level) entries appended by log (most recent first). -/
structure PhoneState where
  wsOpen : Bool
  isConnected : Bool
  isRegistered : Bool
  isInCall : Bool
  hasIncomingCall : Bool
  callStartTime : Option Nat
  callTimer : Bool
  currentCaller : String
  ringtone : Bool
  callInfoVisible : Bool
  remoteNumberText : String
  callDurationText : String
  callStatusText : String
  phoneNumberInput : String
  sipServerInput : String
  sipPortInput : String
  sipLoginInput : String
  sipPasswordInput : String
  sipNumberInput : String
  settingsSaveCount : Nat
  sent : List String
  logs : List (String × String)
deriving DecidableEq

/-- log(message, level) (lines 533-544): appends a log entry (DOM append
plus saveLogToStorage, modelled as one list prepend). -/
def log (message level : String) (s : PhoneState) : PhoneState :=
  { s with logs := (message, level) :: s.logs }

/-- playRingtone (lines 435-460): starts the ringtone interval. -/
def playRingtone (s : PhoneState) : PhoneState :=
  { s with ringtone := true }

/-- stopRingtone (lines 462-467): clears the ringtone interval if set. -/
def stopRingtone (s : PhoneState) : PhoneState :=
  { s with ringtone := false }

/-- startCallTimer (lines 469-478): records callStartTime = new Date()
(the now parameter) and starts the duration interval. -/
def startCallTimer (now : Nat) (s : PhoneState) : PhoneState :=
  { s with callStartTime := some now, callTimer := true }

/-- stopCallTimer (lines 480-486): clears the interval handle and blanks
the displayed duration.  Note: it does NOT clear callStartTime. -/
def stopCallTimer (s : PhoneState) : PhoneState :=
  { s with callTimer := false, callDurationText := "" }

/-- updateCallControls (lines 514-531): only toggles the disabled flags of
DOM buttons from the current flags; no modelled state is written. -/
def updateCallControls (s : PhoneState) : PhoneState := s

/-- updateSIPStatus (lines 498-512): only writes the SIP status label and
button disabled flags; no modelled state is written. -/
def updateSIPStatus (s : PhoneState) : PhoneState := s

/-- updateConnectionStatus (lines 488-496): only writes the connection
status label; no modelled state is written. -/
def updateConnectionStatus (s : PhoneState) : PhoneState := s

/-- showIncomingCall(callerNumber) (lines 395-405): shows the call-info
region with the caller number and starts the ringtone (button toggles
omitted). -/
def showIncomingCall (callerNumber : String) (s : PhoneState) : PhoneState :=
  playRingtone
    { s with callInfoVisible := true
             remoteNumberText := callerNumber
             callStatusText := "Входящий вызов..." }

/-- showOutgoingCall(number) (lines 407-414): shows the call-info region
for an outgoing call (button toggles omitted). -/
def showOutgoingCall (number : String) (s : PhoneState) : PhoneState :=
  { s with callInfoVisible := true
           remoteNumberText := number
           callStatusText := "Установка соединения..." }

/-- updateCallInfo (lines 416-425): if in a call, shows the talk view
(remote number falls back to the dial input when currentCaller is empty,
modelling currentCaller || phoneNumber.value); else if an incoming call is
flagged, re-runs showIncomingCall; else does nothing. -/
def updateCallInfo (s : PhoneState) : PhoneState :=
  if s.isInCall then
    { s with callInfoVisible := true
             remoteNumberText :=
               if s.currentCaller = "" then s.phoneNumberInput else s.currentCaller
             callStatusText := "Разговор..." }
  else if s.hasIncomingCall then
    showIncomingCall s.currentCaller s
  else s

/-- hideCallInfo (lines 427-433): hides the call-info region, blanks its
three text cells and stops the ringtone. -/
def hideCallInfo (s : PhoneState) : PhoneState :=
  stopRingtone
    { s with callInfoVisible := false
             remoteNumberText := ""
             callDurationText := ""
             callStatusText := "" }

/-- Models the JS String.prototype.trim used throughout getSIPSettings
and makeCall: strip leading and trailing whitespace (structural
implementation over the character list). -/
def jsTrim (s : String) : String :=
  String.mk
    (((s.data.dropWhile Char.isWhitespace).reverse.dropWhile Char.isWhitespace).reverse)

/-- Models the JS parseInt on base-10 input: leading digits after
whitespace are read, anything after them is ignored; no leading digit
means NaN, returned as none. -/
def parseIntJS (s : String) : Option Nat :=
  let ds := (jsTrim s).data.takeWhile Char.isDigit
  if ds.isEmpty then none
  else some (ds.foldl (fun acc c => acc * 10 + (c.toNat - 48)) 0)

/-- Models parseInt(v) || 5060 used for the port field (line 388): a
non-numeric (NaN) or zero parse falls back to 5060. -/
def parsePort (v : String) : Nat :=
  match parseIntJS v with
  | some n => if n = 0 then 5060 else n
  | none => 5060

/-- getSIPSettings (lines 385-393): builds the settings snapshot from the
trimmed input values. -/
def getSIPSettings (s : PhoneState) : SIPSettings :=
  { sip_server := jsTrim s.sipServerInput
    sip_port := parsePort s.sipPortInput
    login := jsTrim s.sipLoginInput
    password := jsTrim s.sipPasswordInput
    number := jsTrim s.sipNumberInput }

/-- validateSIPSettings (lines 380-383): JS truthiness of every field
(non-empty strings, non-zero port). -/
def validateSIPSettings (t : SIPSettings) : Bool :=
  t.sip_server != "" && t.sip_port != 0 && t.login != "" &&
    t.password != "" && t.number != ""

/-- saveSettings (lines 577-582): writes the settings snapshot (and log
level) to localStorage — modelled as bumping the persist counter — then
logs. -/
def saveSettings (s : PhoneState) : PhoneState :=
  log "Настройки сохранены" "info"
    { s with settingsSaveCount := s.settingsSaveCount + 1 }

/-- sendWebSocketMessage (lines 224-230): transmits only when the socket
exists and readyState is OPEN, otherwise logs an error and drops the
message.  Only the type field of the message is recorded. -/
def sendWebSocketMessage (msgType : String) (s : PhoneState) : PhoneState :=
  if s.wsOpen then { s with sent := msgType :: s.sent }
  else log "WebSocket не подключен" "error" s

/-- requestStatus (lines 232-237): sends get_status. -/
def requestStatus (s : PhoneState) : PhoneState :=
  sendWebSocketMessage "get_status" s

/-- registerSIP (lines 239-253): validates the settings inputs; on failure
logs a warning and returns, otherwise sends sip_register and logs.  Note:
no local registration field is written. -/
def registerSIP (s : PhoneState) : PhoneState :=
  if validateSIPSettings (getSIPSettings s) then
    log "Отправлен запрос регистрации SIP" "info"
      (sendWebSocketMessage "sip_register" s)
  else
    log "Заполните все настройки SIP" "warning" s

/-- unregisterSIP (lines 255-262): sends sip_unregister and logs. -/
def unregisterSIP (s : PhoneState) : PhoneState :=
  log "Отправлен запрос отключения SIP" "info"
    (sendWebSocketMessage "sip_unregister" s)

/-- makeCall (lines 264-278): trims the dial input; empty → warning log
only; otherwise sends sip_make_call, shows the outgoing-call view and
logs.  Note: no session flag (isInCall etc.) is written. -/
def makeCall (s : PhoneState) : PhoneState :=
  let number := jsTrim s.phoneNumberInput
  if number = "" then
    log "Введите номер для вызова" "warning" s
  else
    log ("Набор номера: " ++ number) "info"
      (showOutgoingCall number (sendWebSocketMessage "sip_make_call" s))

/-- answerCall (lines 280-287): sends sip_answer_call and logs; no local
state transition (answer is not optimistic). -/
def answerCall (s : PhoneState) : PhoneState :=
  log "Принятие входящего звонка" "info"
    (sendWebSocketMessage "sip_answer_call" s)

/-- hangupCall (lines 289-304): sends sip_hangup_call first, then
unconditionally applies the optimistic local reset: isInCall := false,
hasIncomingCall := false, stopRingtone, stopCallTimer, updateCallControls,
then logs. -/
def hangupCall (s : PhoneState) : PhoneState :=
  let s1 := sendWebSocketMessage "sip_hangup_call" s
  log "Отправлен сигнал завершения звонка" "info"
    (updateCallControls (stopCallTimer (stopRingtone
      { s1 with isInCall := false, hasIncomingCall := false })))

/-- sendDTMF(digit) (lines 306-317): guarded on isInCall; otherwise only a
warning log. -/
def sendDTMF (digit : String) (s : PhoneState) : PhoneState :=
  if s.isInCall then
    log ("Отправлен DTMF: " ++ digit) "info"
      (sendWebSocketMessage "sip_send_dtmf" s)
  else
    log "Нет активного звонка для отправки DTMF" "warning" s

/-- sendMessage(toNumber, content) (lines 319-335): guarded on
isRegistered; otherwise only a warning log (the boolean return value is
not modelled). -/
def sendMessage (toNumber _content : String) (s : PhoneState) : PhoneState :=
  if s.isRegistered then
    log ("Отправка сообщения на номер: " ++ toNumber) "info"
      (sendWebSocketMessage "sip_send_message" s)
  else
    log "Не зарегистрирован для отправки сообщений" "warning" s

/-- handleStatusUpdate(payload) (lines 163-171): unconditional overwrite
of the four session fields from the snapshot, then the three display
updates. -/
def handleStatusUpdate (payload : StatusPayload) (s : PhoneState) : PhoneState :=
  updateCallInfo (updateCallControls (updateSIPStatus
    { s with isRegistered := payload.sip_registered
             isInCall := payload.active_call
             hasIncomingCall := payload.has_incoming
             currentCaller := payload.caller_number }))

/-- handleSIPRegistered (lines 173-178): sets isRegistered, logs, updates
the SIP status display and unconditionally calls saveSettings. -/
def handleSIPRegistered (s : PhoneState) : PhoneState :=
  saveSettings (updateSIPStatus
    (log "Успешная регистрация на SIP сервере" "info"
      { s with isRegistered := true }))

/-- handleSIPUnregistered (lines 180-184). -/
def handleSIPUnregistered (s : PhoneState) : PhoneState :=
  updateSIPStatus
    (log "Регистрация SIP сброшена" "warning"
      { s with isRegistered := false })

/-- handleIncomingCall(payload) (lines 186-190).  In the source the first
statement sets hasIncomingCall = true; the second reads
payload.caller_number, which throws a TypeError when the payload is
absent.  The returned Bool is true when the handler threw, with the state
as mutated up to the throwing statement (JS leaves earlier assignments in
place). -/
def handleIncomingCall (payload : Option IncomingPayload) (s : PhoneState) :
    PhoneState × Bool :=
  match payload with
  | none => ({ s with hasIncomingCall := true }, true)
  | some p =>
      (showIncomingCall p.caller_number
        { s with hasIncomingCall := true, currentCaller := p.caller_number },
       false)

/-- handleCallRinging (lines 192-195): status text and a log only. -/
def handleCallRinging (s : PhoneState) : PhoneState :=
  log "Абонент звонит" "info" { s with callStatusText := "Абонент звонит..." }

/-- handleCallAnswered (lines 197-205): isInCall := true, incoming flag
cleared, ringtone stopped, call timer started (recording now), log and
display updates. -/
def handleCallAnswered (now : Nat) (s : PhoneState) : PhoneState :=
  updateCallInfo (updateCallControls
    (log "Звонок установлен" "info"
      (startCallTimer now (stopRingtone
        { s with isInCall := true, hasIncomingCall := false }))))

/-- handleCallEnded (lines 207-215): clears both call flags, stops the
timer and ringtone, hides the call info, logs.  Note: currentCaller and
callStartTime are NOT cleared. -/
def handleCallEnded (s : PhoneState) : PhoneState :=
  updateCallControls
    (log "Звонок завершен" "info"
      (hideCallInfo (stopRingtone (stopCallTimer
        { s with isInCall := false, hasIncomingCall := false }))))

/-- handleCallFailed(payload) (lines 217-222): logs the failure reason,
stops the ringtone, hides the call info.  Note: neither isInCall nor
hasIncomingCall is written. -/
def handleCallFailed (reason : String) (s : PhoneState) : PhoneState :=
  updateCallControls (hideCallInfo (stopRingtone
    (log ("Ошибка звонка: " ++ reason) "error" s)))

/-- Inbound event vocabulary of the dispatcher switch (lines 124-157).
incoming_call carries an optional payload so that the absent-payload
failure path can be exercised; the other payloads are modelled with just
the fields their handlers read. -/
inductive InEvent
  | status_update (payload : StatusPayload)
  | sip_registered
  | sip_unregistered
  | incoming_call (payload : Option IncomingPayload)
  | call_ringing
  | call_answered
  | call_ended
  | call_failed (reason : String)
  | success (message : String)
  | error (message : String)
  | unknown (t : String)
deriving DecidableEq

/-- The data.type string of an event, used by the debug log line 122. -/
def evTypeName : InEvent → String
  | .status_update _ => "status_update"
  | .sip_registered => "sip_registered"
  | .sip_unregistered => "sip_unregistered"
  | .incoming_call _ => "incoming_call"
  | .call_ringing => "call_ringing"
  | .call_answered => "call_answered"
  | .call_ended => "call_ended"
  | .call_failed _ => "call_failed"
  | .success _ => "success"
  | .error _ => "error"
  | .unknown t => t

/-- handleWebSocketMessage (lines 119-161) on an already-parsed message:
logs the debug line, dispatches on type; the surrounding try/catch logs a
handler exception and keeps whatever mutations the handler made before
throwing (the only modelled throw site is handleIncomingCall with an
absent payload). -/
def handleWebSocketMessage (now : Nat) (e : InEvent) (s : PhoneState) : PhoneState :=
  let s1 := log ("Получено: " ++ evTypeName e) "debug" s
  match e with
  | .status_update p => handleStatusUpdate p s1
  | .sip_registered => handleSIPRegistered s1
  | .sip_unregistered => handleSIPUnregistered s1
  | .incoming_call p =>
      let r := handleIncomingCall p s1
      if r.2 then log "Ошибка обработки сообщения: TypeError" "error" r.1 else r.1
  | .call_ringing => handleCallRinging s1
  | .call_answered => handleCallAnswered now s1
  | .call_ended => handleCallEnded s1
  | .call_failed reason => handleCallFailed reason s1
  | .success m => log ("Успех: " ++ m) "info" s1
  | .error m => log ("Ошибка: " ++ m) "error" s1
  | .unknown t => log ("Неизвестный тип сообщения: " ++ t) "warning" s1

/-- Applying an inbound event is dispatching it through
handleWebSocketMessage. -/
def applyEvent (now : Nat) (e : InEvent) (s : PhoneState) : PhoneState :=
  handleWebSocketMessage now e s

/-- The locally issued commands (the public methods wired to UI input). -/
inductive Command
  | getStatusCmd
  | registerCmd
  | unregisterCmd
  | makeCallCmd
  | answerCmd
  | hangupCmd
  | dtmfCmd (digit : String)
  | sendMessageCmd (toNumber content : String)
deriving DecidableEq

/-- Dispatch of a local command to the method that implements it. -/
def applyCommand : Command → PhoneState → PhoneState
  | .getStatusCmd, s => requestStatus s
  | .registerCmd, s => registerSIP s
  | .unregisterCmd, s => unregisterSIP s
  | .makeCallCmd, s => makeCall s
  | .answerCmd, s => answerCall s
  | .hangupCmd, s => hangupCall s
  | .dtmfCmd d, s => sendDTMF d s
  | .sendMessageCmd t c, s => sendMessage t c s

/-- websocket.onopen (lines 90-95): log, isConnected := true (readyState
is now OPEN, so wsOpen too), display update, then requestStatus. -/
def onSocketOpen (s : PhoneState) : PhoneState :=
  requestStatus (updateConnectionStatus
    { log "WebSocket подключен" "info" s with wsOpen := true, isConnected := true })

/-- websocket.onclose (lines 101-108): log, isConnected := false (the
socket is no longer OPEN), display update.  The reconnect setTimeout it
schedules is modelled separately by the transport transition system. -/
def onSocketClose (s : PhoneState) : PhoneState :=
  updateConnectionStatus
    { log "WebSocket отключен" "warning" s with wsOpen := false, isConnected := false }

/-- destroy (lines 610-617): requests socket closure (the asynchronous
onclose callback is a separate step), stops the call timer and ringtone,
logs. -/
def destroy (s : PhoneState) : PhoneState :=
  log "SIP телефон остановлен" "info"
    (stopRingtone (stopCallTimer { s with wsOpen := false }))

/-- One step of the single-threaded event loop: a local command, an
inbound event, or a socket lifecycle callback. -/
inductive Action
  | evt (e : InEvent)
  | cmd (c : Command)
  | connOpen
  | connClose
deriving DecidableEq

/-- Apply one action at wall-clock time now. -/
def stepAction (now : Nat) : Action → PhoneState → PhoneState
  | .evt e, s => applyEvent now e s
  | .cmd c, s => applyCommand c s
  | .connOpen, s => onSocketOpen s
  | .connClose, s => onSocketClose s

/-- Run a sequence of (time, action) steps left to right. -/
def runActions (steps : List (Nat × Action)) (s : PhoneState) : PhoneState :=
  steps.foldl (fun st p => stepAction p.1 p.2 st) s

/-- The state right after the constructor (lines 2-17): all flags false,
no call data, empty inputs, the initialisation log entry written. -/
def phoneInit : PhoneState where
  wsOpen := false
  isConnected := false
  isRegistered := false
  isInCall := false
  hasIncomingCall := false
  callStartTime := none
  callTimer := false
  currentCaller := ""
  ringtone := false
  callInfoVisible := false
  remoteNumberText := ""
  callDurationText := ""
  callStatusText := ""
  phoneNumberInput := ""
  sipServerInput := ""
  sipPortInput := ""
  sipLoginInput := ""
  sipPasswordInput := ""
  sipNumberInput := ""
  settingsSaveCount := 0
  sent := []
  logs := [("SIP телефон инициализирован", "info")]

/-- The session-state components named by the spec's state machine:
registration flag, the two call flags, the stored caller number and the
call-start timestamp. -/
structure SessionState where
  isRegistered : Bool
  isInCall : Bool
  hasIncomingCall : Bool
  currentCaller : String
  callStartTime : Option Nat
deriving DecidableEq

/-- Projection of the full object state onto the session state. -/
def sessionOf (s : PhoneState) : SessionState :=
  { isRegistered := s.isRegistered
    isInCall := s.isInCall
    hasIncomingCall := s.hasIncomingCall
    currentCaller := s.currentCaller
    callStartTime := s.callStartTime }

/-!
Transport-manager lifecycle (connectWebSocket, lines 85-117, and destroy,
lines 610-617), modelled as a guarded transition system.  alive: a socket
object exists whose close event has not yet been delivered; timers: the
number of pending reconnect setTimeout callbacks (the onclose handler at
line 107 schedules one unconditionally and stores no handle, and nothing
in the source ever calls clearTimeout on it); destroyed: destroy() has
run.  destroy() calls websocket.close(), whose asynchronous close event is
delivered as a later socketClosed step, exactly like a network closure.
-/

/-- State of the transport lifecycle. -/
structure TransportState where
  alive : Bool
  timers : Nat
  destroyed : Bool
deriving DecidableEq

/-- Transport lifecycle occurrences: delivery of a socket close event, a
pending reconnect setTimeout firing (running connectWebSocket again), and
the destroy() call. -/
inductive TEvent
  | socketClosed
  | reconnectTimerFires
  | destroyCalled
deriving DecidableEq

/-- Enabledness: a close event needs a live socket; a timer can fire only
while one is pending (and the source never cancels one, so a pending
timer always remains fireable, destroyed or not); destroy can always be
called. -/
def tEnabled : TEvent → TransportState → Bool
  | .socketClosed, s => s.alive
  | .reconnectTimerFires, s => s.timers != 0
  | .destroyCalled, _ => true

/-- Effect: onclose (lines 101-108) marks the socket gone and schedules
exactly one reconnect; a firing timer runs connectWebSocket (lines
85-117), consuming itself and creating a fresh socket; destroy (lines
610-617) only requests closure of the current socket and cancels
nothing. -/
def tApply : TEvent → TransportState → TransportState
  | .socketClosed, s => { s with alive := false, timers := s.timers + 1 }
  | .reconnectTimerFires, s => { s with alive := true, timers := s.timers - 1 }
  | .destroyCalled, s => { s with destroyed := true }

/-- Run a sequence of transport occurrences, failing when one is not
enabled. -/
def runT : List TEvent → TransportState → Option TransportState
  | [], s => some s
  | e :: es, s => if tEnabled e s then runT es (tApply e s) else none

/-- Transport state right after the constructor's connectWebSocket call:
one live socket, no pending reconnect, not destroyed. -/
def tInit : TransportState where
  alive := true
  timers := 0
  destroyed := false

/-!  Concrete states used by counterexamples and witnesses.  -/

/-- A disconnected state in the middle of an active call (reachable, e.g.
call answered and then the socket dropped): used against C1. -/
def cexC1 : PhoneState :=
  { phoneInit with isInCall := true, callTimer := true, callStartTime := some 4,
                   currentCaller := "1001" }

/-- A connected, registered, idle state used by the C1 witness. -/
def wC1 : PhoneState :=
  { phoneInit with isRegistered := true }

/-- A state in an active outgoing call, used against C3. -/
def cexC3 : PhoneState :=
  { phoneInit with wsOpen := true, isConnected := true, isRegistered := true,
                   isInCall := true, callTimer := true, callStartTime := some 9,
                   ringtone := false, callInfoVisible := true,
                   remoteNumberText := "2002", currentCaller := "2002" }

/-- A connected registered idle state with a dialled number, used by C5. -/
def dialStateC5 : PhoneState :=
  { phoneInit with wsOpen := true, isConnected := true, isRegistered := true,
                   phoneNumberInput := "3003" }

/-- A connected active-call state used by the C6 witness. -/
def wC6 : PhoneState :=
  { phoneInit with wsOpen := true, isConnected := true, isRegistered := true,
                   isInCall := true, callTimer := true, callStartTime := some 7,
                   currentCaller := "4004", callInfoVisible := true,
                   remoteNumberText := "4004" }

/-- A connected unregistered state with all settings inputs filled, used
against C7. -/
def cexC7 : PhoneState :=
  { phoneInit with wsOpen := true, isConnected := true,
                   sipServerInput := "sip.example.org", sipPortInput := "5060",
                   sipLoginInput := "alice", sipPasswordInput := "pw",
                   sipNumberInput := "100" }

/-- An active call with a stored caller number, used against C9. -/
def cexC9 : PhoneState :=
  { phoneInit with wsOpen := true, isConnected := true, isRegistered := true,
                   isInCall := true, callTimer := true, callStartTime := some 3,
                   currentCaller := "5005", callInfoVisible := true,
                   remoteNumberText := "5005" }

/-!  Helper lemmas: field-preservation facts about the display helpers.  -/

/-- updateCallInfo only writes the call-info display cells and the
ringtone; every session field, the timer, the counters and the channels
are untouched. -/
@[simp] theorem updateCallInfo_isRegistered (s : PhoneState) :
    (updateCallInfo s).isRegistered = s.isRegistered := by
  unfold updateCallInfo showIncomingCall playRingtone
  split_ifs <;> rfl

@[simp] theorem updateCallInfo_isInCall (s : PhoneState) :
    (updateCallInfo s).isInCall = s.isInCall := by
  unfold updateCallInfo showIncomingCall playRingtone
  split_ifs <;> rfl

@[simp] theorem updateCallInfo_hasIncomingCall (s : PhoneState) :
    (updateCallInfo s).hasIncomingCall = s.hasIncomingCall := by
  unfold updateCallInfo showIncomingCall playRingtone
  split_ifs <;> rfl

@[simp] theorem updateCallInfo_currentCaller (s : PhoneState) :
    (updateCallInfo s).currentCaller = s.currentCaller := by
  unfold updateCallInfo showIncomingCall playRingtone
  split_ifs <;> rfl

@[simp] theorem updateCallInfo_callStartTime (s : PhoneState) :
    (updateCallInfo s).callStartTime = s.callStartTime := by
  unfold updateCallInfo showIncomingCall playRingtone
  split_ifs <;> rfl

@[simp] theorem updateCallInfo_callTimer (s : PhoneState) :
    (updateCallInfo s).callTimer = s.callTimer := by
  unfold updateCallInfo showIncomingCall playRingtone
  split_ifs <;> rfl

@[simp] theorem updateCallInfo_settingsSaveCount (s : PhoneState) :
    (updateCallInfo s).settingsSaveCount = s.settingsSaveCount := by
  unfold updateCallInfo showIncomingCall playRingtone
  split_ifs <;> rfl

@[simp] theorem updateCallInfo_sent (s : PhoneState) :
    (updateCallInfo s).sent = s.sent := by
  unfold updateCallInfo showIncomingCall playRingtone
  split_ifs <;> rfl

@[simp] theorem updateCallInfo_logs (s : PhoneState) :
    (updateCallInfo s).logs = s.logs := by
  unfold updateCallInfo showIncomingCall playRingtone
  split_ifs <;> rfl

/-- Claim C2 counterexample: processing sip_registered twice in a row from
the initial state performs the settings-save side effect twice, not
exactly once as the claim states (saveSettings is called unconditionally
by handleSIPRegistered on every occurrence). -/
theorem C2_counterexample :
    (runActions [(0, Action.evt InEvent.sip_registered)] phoneInit).settingsSaveCount = 1 ∧
    (runActions [(0, Action.evt InEvent.sip_registered),
                 (1, Action.evt InEvent.sip_registered)] phoneInit).settingsSaveCount = 2 := by
  constructor <;> rfl

/-- Claim C2 (amended): for every state, processing sip_registered twice
in a row yields the registered state and is idempotent on the session
state, but the settings-save side effect is performed once per
occurrence — twice in total for duplicate confirmations, not once. -/
theorem C2_amended (s : PhoneState) (n1 n2 : Nat) :
    (applyEvent n1 InEvent.sip_registered s).isRegistered = true ∧
    (applyEvent n2 InEvent.sip_registered
        (applyEvent n1 InEvent.sip_registered s)).isRegistered = true ∧
    sessionOf (applyEvent n2 InEvent.sip_registered
        (applyEvent n1 InEvent.sip_registered s)) =
      sessionOf (applyEvent n1 InEvent.sip_registered s) ∧
    (applyEvent n1 InEvent.sip_registered s).settingsSaveCount =
      s.settingsSaveCount + 1 ∧
    (applyEvent n2 InEvent.sip_registered
        (applyEvent n1 InEvent.sip_registered s)).settingsSaveCount =
      s.settingsSaveCount + 2 := by
  simp [applyEvent, handleWebSocketMessage, handleSIPRegistered, saveSettings,
    updateSIPStatus, log, evTypeName, sessionOf]

/-- Claim C3 counterexample: from an active call, processing call_failed
leaves isInCall = true — the call state is not transitioned to IDLE
(handleCallFailed never writes the call flags). -/
theorem C3_counterexample :
    cexC3.isInCall = true ∧
    (applyEvent 0 (InEvent.call_failed "486 Busy Here") cexC3).isInCall = true := by
  constructor <;> rfl

/-- Claim C3 (amended): processing call_failed stops the ringtone, logs
the failure reason and hides/clears the call-info display, but leaves the
active-call and incoming-call flags (and the rest of the session state)
unchanged — there is no transition to IDLE. -/
theorem C3_amended (s : PhoneState) (reason : String) (now : Nat) :
    (applyEvent now (InEvent.call_failed reason) s).ringtone = false ∧
    (applyEvent now (InEvent.call_failed reason) s).logs =
      ("Ошибка звонка: " ++ reason, "error") ::
        ("Получено: call_failed", "debug") :: s.logs ∧
    (applyEvent now (InEvent.call_failed reason) s).callInfoVisible = false ∧
    (applyEvent now (InEvent.call_failed reason) s).isInCall = s.isInCall ∧
    (applyEvent now (InEvent.call_failed reason) s).hasIncomingCall = s.hasIncomingCall ∧
    (applyEvent now (InEvent.call_failed reason) s).isRegistered = s.isRegistered ∧
    (applyEvent now (InEvent.call_failed reason) s).currentCaller = s.currentCaller ∧
    (applyEvent now (InEvent.call_failed reason) s).callStartTime = s.callStartTime := by
  simp [applyEvent, handleWebSocketMessage, handleCallFailed, hideCallInfo,
    stopRingtone, updateCallControls, log, evTypeName]

/-- Claim C5 (confirmed): a status_update overwrites the registration
flag, the active-call flag, the incoming-call flag and the caller number
with the payload values, for every prior state; in particular, after
issuing make_call from a connected registered state, a status_update with
active_call = false and has_incoming = false leaves the call state IDLE
(both call flags false). -/
theorem C5_status_overwrite :
    (∀ (s : PhoneState) (p : StatusPayload) (now : Nat),
      (applyEvent now (InEvent.status_update p) s).isRegistered = p.sip_registered ∧
      (applyEvent now (InEvent.status_update p) s).isInCall = p.active_call ∧
      (applyEvent now (InEvent.status_update p) s).hasIncomingCall = p.has_incoming ∧
      (applyEvent now (InEvent.status_update p) s).currentCaller = p.caller_number) ∧
    ((applyEvent 1 (InEvent.status_update
        { sip_registered := true, active_call := false, has_incoming := false,
          caller_number := "" })
        (applyCommand Command.makeCallCmd dialStateC5)).isInCall = false ∧
     (applyEvent 1 (InEvent.status_update
        { sip_registered := true, active_call := false, has_incoming := false,
          caller_number := "" })
        (applyCommand Command.makeCallCmd dialStateC5)).hasIncomingCall = false) := by
  refine ⟨fun s p now => ?_, rfl, rfl⟩
  simp [applyEvent, handleWebSocketMessage, handleStatusUpdate,
    updateCallControls, updateSIPStatus, log, evTypeName]

/-- Claim C9 counterexample: processing call_ended from an active call
with stored caller number "5005" yields the IDLE flags but the stored
remote party number (currentCaller) is still "5005", not empty. -/
theorem C9_counterexample :
    (applyEvent 0 InEvent.call_ended cexC9).isInCall = false ∧
    (applyEvent 0 InEvent.call_ended cexC9).hasIncomingCall = false ∧
    (applyEvent 0 InEvent.call_ended cexC9).currentCaller = "5005" := by
  refine ⟨rfl, rfl, rfl⟩

/-- Claim C9 (amended): processing call_ended transitions to IDLE (both
call flags false), stops the call timer and the ringtone, and clears the
DISPLAYED remote number text, but the stored caller number field
(currentCaller) retains its previous value — it is not emptied. -/
theorem C9_amended (s : PhoneState) (now : Nat) :
    (applyEvent now InEvent.call_ended s).isInCall = false ∧
    (applyEvent now InEvent.call_ended s).hasIncomingCall = false ∧
    (applyEvent now InEvent.call_ended s).callTimer = false ∧
    (applyEvent now InEvent.call_ended s).ringtone = false ∧
    (applyEvent now InEvent.call_ended s).callInfoVisible = false ∧
    (applyEvent now InEvent.call_ended s).remoteNumberText = "" ∧
    (applyEvent now InEvent.call_ended s).currentCaller = s.currentCaller ∧
    (applyEvent now InEvent.call_ended s).callStartTime = s.callStartTime := by
  simp [applyEvent, handleWebSocketMessage, handleCallEnded, hideCallInfo,
    stopRingtone, stopCallTimer, updateCallControls, log, evTypeName]

/-- Claim C1 counterexample: hangup_call issued while the connection is
not open (wsOpen = false) from an active call sends nothing, but the
session state DOES change: isInCall flips from true to false (hangupCall
applies its local reset unconditionally, lines 296-301). -/
theorem C1_counterexample :
    cexC1.wsOpen = false ∧
    cexC1.isInCall = true ∧
    (hangupCall cexC1).sent = cexC1.sent ∧
    (hangupCall cexC1).isInCall = false := by
  refine ⟨rfl, rfl, rfl, rfl⟩

/-- Claim C1 (amended): every command issued while the connection is not
open is dropped (nothing is sent) and logged, and the registration flag,
caller number and call-start timestamp never change; every command other
than hangup_call leaves the whole session state unchanged — but
hangup_call still applies its optimistic local reset, forcing isInCall
and hasIncomingCall to false even while disconnected. -/
theorem C1_amended (c : Command) (s : PhoneState) (h : s.wsOpen = false) :
    (applyCommand c s).sent = s.sent ∧
    s.logs.length < (applyCommand c s).logs.length ∧
    (applyCommand c s).isRegistered = s.isRegistered ∧
    (applyCommand c s).currentCaller = s.currentCaller ∧
    (applyCommand c s).callStartTime = s.callStartTime ∧
    (c ≠ Command.hangupCmd → sessionOf (applyCommand c s) = sessionOf s) ∧
    ((applyCommand Command.hangupCmd s).isInCall = false ∧
     (applyCommand Command.hangupCmd s).hasIncomingCall = false) := by
  have hhang : (applyCommand Command.hangupCmd s).isInCall = false ∧
      (applyCommand Command.hangupCmd s).hasIncomingCall = false := by
    simp [applyCommand, hangupCall, sendWebSocketMessage, stopRingtone,
      stopCallTimer, updateCallControls, log, h]
  cases c <;>
    simp [applyCommand, requestStatus, registerSIP, unregisterSIP, makeCall,
      answerCall, hangupCall, sendDTMF, sendMessage, sendWebSocketMessage,
      showOutgoingCall, stopRingtone, stopCallTimer, updateCallControls, log,
      sessionOf, h, hhang]
  all_goals try omega
  all_goals split_ifs <;> ((try simp); (try omega))

/-- Claim C1 witness: a concrete disconnected state on which the amended
theorem applies (instantiated at the answer command). -/
theorem C1_amended_witness :
    wC1.wsOpen = false ∧
    ((applyCommand Command.answerCmd wC1).sent = wC1.sent ∧
     wC1.logs.length < (applyCommand Command.answerCmd wC1).logs.length ∧
     (applyCommand Command.answerCmd wC1).isRegistered = wC1.isRegistered ∧
     (applyCommand Command.answerCmd wC1).currentCaller = wC1.currentCaller ∧
     (applyCommand Command.answerCmd wC1).callStartTime = wC1.callStartTime ∧
     (Command.answerCmd ≠ Command.hangupCmd →
       sessionOf (applyCommand Command.answerCmd wC1) = sessionOf wC1) ∧
     ((applyCommand Command.hangupCmd wC1).isInCall = false ∧
      (applyCommand Command.hangupCmd wC1).hasIncomingCall = false)) :=
  ⟨rfl, C1_amended Command.answerCmd wC1 rfl⟩

/-- Every single step of the event loop preserves the timer-timestamp
fact: while the duration interval is running, callStartTime is set (the
only writer of callTimer := true is startCallTimer, which also writes the
timestamp). -/
theorem timerInv_step (now : Nat) (a : Action) (s : PhoneState)
    (h : s.callTimer = true → s.callStartTime.isSome = true) :
    (stepAction now a s).callTimer = true →
      (stepAction now a s).callStartTime.isSome = true := by
  cases a with
  | evt e =>
    cases e with
    | status_update p =>
        simpa [stepAction, applyEvent, handleWebSocketMessage, handleStatusUpdate,
          updateCallControls, updateSIPStatus, log] using h
    | sip_registered =>
        simpa [stepAction, applyEvent, handleWebSocketMessage, handleSIPRegistered,
          saveSettings, updateSIPStatus, log] using h
    | sip_unregistered =>
        simpa [stepAction, applyEvent, handleWebSocketMessage, handleSIPUnregistered,
          updateSIPStatus, log] using h
    | incoming_call p =>
        cases p <;>
          simpa [stepAction, applyEvent, handleWebSocketMessage, handleIncomingCall,
            showIncomingCall, playRingtone, log] using h
    | call_ringing =>
        simpa [stepAction, applyEvent, handleWebSocketMessage, handleCallRinging,
          log] using h
    | call_answered =>
        simp [stepAction, applyEvent, handleWebSocketMessage, handleCallAnswered,
          startCallTimer, stopRingtone, updateCallControls, log]
    | call_ended =>
        simp [stepAction, applyEvent, handleWebSocketMessage, handleCallEnded,
          hideCallInfo, stopRingtone, stopCallTimer, updateCallControls, log]
    | call_failed r =>
        simpa [stepAction, applyEvent, handleWebSocketMessage, handleCallFailed,
          hideCallInfo, stopRingtone, updateCallControls, log] using h
    | success m =>
        simpa [stepAction, applyEvent, handleWebSocketMessage, log] using h
    | error m =>
        simpa [stepAction, applyEvent, handleWebSocketMessage, log] using h
    | unknown t =>
        simpa [stepAction, applyEvent, handleWebSocketMessage, log] using h
  | cmd c =>
    cases c <;>
      simp [stepAction, applyCommand, requestStatus, registerSIP, unregisterSIP,
        makeCall, answerCall, hangupCall, sendDTMF, sendMessage,
        sendWebSocketMessage, showOutgoingCall, stopRingtone, stopCallTimer,
        updateCallControls, log] <;>
      split_ifs <;> simpa using h
  | connOpen =>
      simpa [stepAction, onSocketOpen, requestStatus, sendWebSocketMessage,
        updateConnectionStatus, log] using h
  | connClose =>
      simpa [stepAction, onSocketClose, updateConnectionStatus, log] using h

/-- The one-step trace refuting claim C4: used by its counterexample. -/
def cexC4steps : List (Nat × Action) :=
  [(0, Action.evt (InEvent.status_update
      { sip_registered := true, active_call := true, has_incoming := false,
        caller_number := "6006" }))]

/-- A second trace for claim C4: call answered at time 2, then ended. -/
def cexC4steps2 : List (Nat × Action) :=
  [(2, Action.evt InEvent.call_answered), (3, Action.evt InEvent.call_ended)]

/-- Claim C4 counterexample: both directions of the invariant fail on
reachable states.  A status_update with active_call = true reaches an
active call with NO call-start timestamp (handleStatusUpdate never starts
the timer), and after call_answered followed by call_ended the state is
non-active yet the timestamp is still set (stopCallTimer never clears
callStartTime). -/
theorem C4_counterexample :
    (runActions cexC4steps phoneInit).isInCall = true ∧
    (runActions cexC4steps phoneInit).callStartTime = none ∧
    (runActions cexC4steps2 phoneInit).isInCall = false ∧
    (runActions cexC4steps2 phoneInit).callStartTime = some 2 := by
  refine ⟨rfl, rfl, rfl, rfl⟩

/-- Claim C4 (amended): over every sequence of commands, inbound events
and socket callbacks from the initial state, whenever the call-duration
timer is running a call-start timestamp is set.  The claimed stronger
invariant, tied to the active-call flag in both directions, fails as
shown by C4_counterexample. -/
theorem C4_amended (steps : List (Nat × Action))
    (h : (runActions steps phoneInit).callTimer = true) :
    ((runActions steps phoneInit).callStartTime).isSome = true := by
  have main : ∀ (l : List (Nat × Action)) (s : PhoneState),
      (s.callTimer = true → s.callStartTime.isSome = true) →
      ((runActions l s).callTimer = true →
        (runActions l s).callStartTime.isSome = true) := by
    intro l
    induction l with
    | nil => intro s hs; exact hs
    | cons p rest ih =>
        intro s hs
        exact ih (stepAction p.1 p.2 s) (timerInv_step p.1 p.2 s hs)
  exact main steps phoneInit (by decide) h

/-- The trace used by the C4 witness: a call is answered at time 6. -/
def wC4steps : List (Nat × Action) := [(6, Action.evt InEvent.call_answered)]

/-- Claim C4 witness: on the concrete answered-call trace the timer is
running and the amended theorem yields the timestamp. -/
theorem C4_amended_witness :
    (runActions wC4steps phoneInit).callTimer = true ∧
    ((runActions wC4steps phoneInit).callStartTime).isSome = true :=
  ⟨by decide, C4_amended wC4steps (by decide)⟩

/-- Claim C6 (confirmed): issuing hangup_call while in an active call
immediately yields the IDLE flags with the call timer stopped, before any
server event; a call_ended event processed afterwards leaves the session
state, the timer and the ringtone unchanged — a no-op on the already-IDLE
state machine (only the log and the call-info display cells are
touched). -/
theorem C6_hangup_optimism (s : PhoneState) (now : Nat) (_h : s.isInCall = true) :
    (hangupCall s).isInCall = false ∧
    (hangupCall s).hasIncomingCall = false ∧
    (hangupCall s).callTimer = false ∧
    sessionOf (applyEvent now InEvent.call_ended (hangupCall s)) =
      sessionOf (hangupCall s) ∧
    (applyEvent now InEvent.call_ended (hangupCall s)).callTimer =
      (hangupCall s).callTimer ∧
    (applyEvent now InEvent.call_ended (hangupCall s)).ringtone =
      (hangupCall s).ringtone := by
  simp [applyEvent, handleWebSocketMessage, handleCallEnded, hangupCall,
    sendWebSocketMessage, hideCallInfo, stopRingtone, stopCallTimer,
    updateCallControls, log, evTypeName, sessionOf]

/-- Claim C6 witness: the optimistic hangup and subsequent call_ended
no-op on a concrete connected active call. -/
theorem C6_hangup_optimism_witness :
    wC6.isInCall = true ∧
    ((hangupCall wC6).isInCall = false ∧
     (hangupCall wC6).hasIncomingCall = false ∧
     (hangupCall wC6).callTimer = false ∧
     sessionOf (applyEvent 8 InEvent.call_ended (hangupCall wC6)) =
       sessionOf (hangupCall wC6) ∧
     (applyEvent 8 InEvent.call_ended (hangupCall wC6)).callTimer =
       (hangupCall wC6).callTimer ∧
     (applyEvent 8 InEvent.call_ended (hangupCall wC6)).ringtone =
       (hangupCall wC6).ringtone) :=
  ⟨rfl, C6_hangup_optimism wC6 8 rfl⟩

/-- Claim C7 counterexample: issuing register while connected with all
settings valid sends sip_register but leaves the local registration state
exactly as it was — still the UNREGISTERED value.  No intermediate
REGISTERING state distinct from UNREGISTERED and REGISTERED exists: the
local registration state is the two-valued flag isRegistered, which
registerSIP never writes. -/
theorem C7_counterexample :
    validateSIPSettings (getSIPSettings cexC7) = true ∧
    cexC7.wsOpen = true ∧
    cexC7.isRegistered = false ∧
    (registerSIP cexC7).isRegistered = false ∧
    (registerSIP cexC7).sent = ["sip_register"] := by
  refine ⟨by decide, rfl, rfl, by decide, by decide⟩

/-- Claim C7 (amended): issuing register while connected with valid
settings sends the sip_register command but leaves the local registration
state (and the whole session state) unchanged; the optimistic local
transition only confirms or changes on later remote events. -/
theorem C7_amended (s : PhoneState)
    (h1 : validateSIPSettings (getSIPSettings s) = true)
    (h2 : s.wsOpen = true) :
    (registerSIP s).isRegistered = s.isRegistered ∧
    (registerSIP s).sent = "sip_register" :: s.sent ∧
    sessionOf (registerSIP s) = sessionOf s := by
  simp [registerSIP, sendWebSocketMessage, log, sessionOf, h1, h2]

/-- Claim C7 witness: the amended theorem applied to a concrete connected
state with valid settings. -/
theorem C7_amended_witness :
    validateSIPSettings (getSIPSettings cexC7) = true ∧
    cexC7.wsOpen = true ∧
    ((registerSIP cexC7).isRegistered = cexC7.isRegistered ∧
     (registerSIP cexC7).sent = "sip_register" :: cexC7.sent ∧
     sessionOf (registerSIP cexC7) = sessionOf cexC7) :=
  ⟨by decide, rfl, C7_amended cexC7 (by decide) rfl⟩

/-- One enabled transport occurrence preserves the pending-timer
bound: at most one timer, and none while a socket is live. -/
theorem tInv_apply (e : TEvent) (s : TransportState)
    (hen : tEnabled e s = true)
    (h1 : s.timers ≤ 1) (h2 : s.alive = true → s.timers = 0) :
    (tApply e s).timers ≤ 1 ∧
      ((tApply e s).alive = true → (tApply e s).timers = 0) := by
  cases e with
  | socketClosed =>
      simp only [tEnabled] at hen
      have h0 := h2 hen
      simp [tApply, h0]
  | reconnectTimerFires =>
      simp [tApply]
      omega
  | destroyCalled =>
      simpa [tApply] using ⟨h1, h2⟩

/-- The pending-timer bound holds along every enabled transport run. -/
theorem tInv_run (tr : List TEvent) :
    ∀ (s0 s : TransportState), s0.timers ≤ 1 → (s0.alive = true → s0.timers = 0) →
      runT tr s0 = some s → s.timers ≤ 1 ∧ (s.alive = true → s.timers = 0) := by
  induction tr with
  | nil =>
      intro s0 s h1 h2 hrun
      simp only [runT] at hrun
      cases hrun
      exact ⟨h1, h2⟩
  | cons e es ih =>
      intro s0 s h1 h2 hrun
      simp only [runT] at hrun
      by_cases hen : tEnabled e s0 = true
      · rw [if_pos hen] at hrun
        have hp := tInv_apply e s0 hen h1 h2
        exact ih (tApply e s0) s hp.1 hp.2 hrun
      · rw [if_neg hen] at hrun
        cases hrun

/-- Claim C8 counterexample: after destroy() the pending reconnect is NOT
cancelled — destroy closes the socket, the delivered close event
schedules a reconnect (timers = 1 while destroyed), and that reconnect
fires after teardown, producing a fresh connection. -/
theorem C8_counterexample :
    runT [TEvent.destroyCalled, TEvent.socketClosed] tInit =
      some { alive := false, timers := 1, destroyed := true } ∧
    runT [TEvent.destroyCalled, TEvent.socketClosed, TEvent.reconnectTimerFires]
        tInit =
      some { alive := true, timers := 0, destroyed := true } := by
  refine ⟨rfl, rfl⟩

/-- Claim C8 (amended): at most one pending reconnect attempt is
outstanding at any time (every reachable transport state has timers ≤ 1),
but explicit teardown does not cancel it: destroy closes the socket,
whose close handler schedules a further reconnect, so a reconnect attempt
still fires after teardown. -/
theorem C8_amended :
    (∀ (tr : List TEvent) (s : TransportState),
        runT tr tInit = some s → s.timers ≤ 1) ∧
    runT [TEvent.destroyCalled, TEvent.socketClosed, TEvent.reconnectTimerFires,
          TEvent.socketClosed] tInit =
      some { alive := false, timers := 1, destroyed := true } := by
  refine ⟨fun tr s hrun => (tInv_run tr tInit s (by decide) (by decide) hrun).1, rfl⟩

/-- Claim C8 witness: the reachable-state bound applied to the concrete
one-closure trace. -/
theorem C8_amended_witness :
    runT [TEvent.socketClosed] tInit =
      some { alive := false, timers := 1, destroyed := false } ∧
    ({ alive := false, timers := 1, destroyed := false } : TransportState).timers ≤ 1 :=
  ⟨rfl, C8_amended.1 [TEvent.socketClosed]
    { alive := false, timers := 1, destroyed := false } rfl⟩

/-- Claim C10 (confirmed): an incoming_call message that parses but
carries no payload is caught and logged by the dispatcher, yet the
incoming-call flag has already been set to true by the handler's first
statement before the failing payload access, leaving the state partially
mutated (every other session field is unchanged). -/
theorem C10_partial_mutation (s : PhoneState) (now : Nat) :
    (applyEvent now (InEvent.incoming_call none) s).hasIncomingCall = true ∧
    (applyEvent now (InEvent.incoming_call none) s).currentCaller = s.currentCaller ∧
    (applyEvent now (InEvent.incoming_call none) s).isInCall = s.isInCall ∧
    (applyEvent now (InEvent.incoming_call none) s).isRegistered = s.isRegistered ∧
    (applyEvent now (InEvent.incoming_call none) s).callStartTime = s.callStartTime ∧
    (applyEvent now (InEvent.incoming_call none) s).ringtone = s.ringtone ∧
    (applyEvent now (InEvent.incoming_call none) s).logs =
      ("Ошибка обработки сообщения: TypeError", "error") ::
        ("Получено: incoming_call", "debug") :: s.logs := by
  simp [applyEvent, handleWebSocketMessage, handleIncomingCall, log, evTypeName]

end SIPPhone
